import Mathlib

/-!
Shallow embedding of `server/app/routers/upload.py` from the Autograder
repository, together with proofs about the claims of its specification.

Modelling conventions:
* the Supabase tables (`exams`, `students`, `questions`, `exam_uploads`,
  `student_answers`, `grading_results`) become lists of records inside a
  `DB` state value; single-row `insert` / `update` / `delete` / `select`
  calls become pure functions on that state, and row ids are `Nat`;
* the external adapters (OCR service, AI grading service) and the answer
  segmentation parser (`OCRService._parse_answers_botanical`, which lives
  outside this router file) are taken as oracle function parameters; a
  Python call that may raise is modelled as returning `Except`, where the
  error also carries the database state at the moment of the raise, since
  writes performed before an exception persist;
* Python `try/except` blocks become `match` on such `Except` values;
* timestamps (`processed_at`, `created_at`) and the printed log lines are
  not observable to any claim and are omitted;
* Python string manipulation (`split`, `strip`, `lower`) is re-implemented
  over `List Char` with the same semantics (`''.split(',') == ['']`,
  both-ends whitespace strip, last-component extension).
-/

namespace Autograder

deriving instance DecidableEq for Except

/-! ### Python string helpers -/

/-- Python `s.split(sep)` for a single-character separator:
splitting the empty string yields `[""]`, separators at the ends yield
empty components. -/
def splitCharAux (sep : Char) : List Char → List Char → List String
  | [], acc => [String.mk acc.reverse]
  | c :: cs, acc =>
    if c == sep then String.mk acc.reverse :: splitCharAux sep cs []
    else splitCharAux sep cs (c :: acc)

/-- Python `s.split(sep)` with a one-character `sep`. -/
def splitChar (sep : Char) (s : String) : List String :=
  splitCharAux sep s.data []

/-- Drop leading whitespace characters. -/
def dropLeadingWs : List Char → List Char
  | [] => []
  | c :: cs => if c.isWhitespace then dropLeadingWs cs else c :: cs

/-- Python `s.strip()`: remove whitespace from both ends. -/
def pyStrip (s : String) : String :=
  String.mk ((dropLeadingWs (dropLeadingWs s.data).reverse).reverse)

/-- Python `s.lower()`. -/
def pyLower (s : String) : String :=
  String.mk (s.data.map Char.toLower)

/-- Models `file.filename.split('.')[-1].lower()`, shared by both upload routes. -/
def fileExtension (filename : String) : String :=
  pyLower ((splitChar '.' filename).getLastD "")

/-! ### Data model (the Supabase tables used by the router) -/

/-- A row of the `exams` table (the columns the router reads). -/
structure Exam where
  id : Nat
  exam_name : String
  total_marks : Nat
deriving DecidableEq

/-- A row of the `students` table. -/
structure Student where
  id : Nat
  student_id : String
  full_name : String
deriving DecidableEq

/-- A row of the `questions` table (the columns `auto_grade_upload`
selects). -/
structure Question where
  id : Nat
  exam_id : Nat
  question_number : Nat
  question_text : String
  max_marks : Int
  sample_answer : String
  keywords : List String
deriving DecidableEq

/-- A row of the `exam_uploads` table. -/
structure Upload where
  id : Nat
  exam_id : Nat
  student_id : Nat
  uploaded_by_teacher_id : String
  file_name : String
  file_path : String
  file_size : Nat
  file_type : String
  processing_status : String
  ocr_extracted_text : String
  confidence_score : Int
  error_message : String
deriving DecidableEq

/-- A row of the `student_answers` table. -/
structure StudentAnswer where
  id : Nat
  upload_id : Nat
  question_id : Nat
  student_id : Nat
  extracted_answer : String
  confidence_score : Int
deriving DecidableEq

/-- A row of the `grading_results` table. -/
structure GradingResult where
  student_answer_id : Nat
  exam_id : Nat
  student_id : Nat
  question_id : Nat
  ai_assigned_marks : Int
  final_marks : Int
  ai_feedback : String
  similarity_score : Int
  ai_confidence : Int
  is_reviewed_by_teacher : Bool
deriving DecidableEq

/-- The database state: the tables touched by the router plus fresh-id
counters for inserted rows. -/
structure DB where
  exams : List Exam
  students : List Student
  questions : List Question
  uploads : List Upload
  student_answers : List StudentAnswer
  grading_results : List GradingResult
  next_upload_id : Nat
  next_answer_id : Nat
deriving DecidableEq

/-- Models `select("*").eq("id", upload_id)` on `exam_uploads`, first row. -/
def DB.findUpload (db : DB) (uid : Nat) : Option Upload :=
  db.uploads.find? (fun u => u.id == uid)

/-- Models `select(...).eq("id", exam_id)` on `exams`, first row. -/
def DB.findExam (db : DB) (eid : Nat) : Option Exam :=
  db.exams.find? (fun e => e.id == eid)

/-- Models `update({...}).eq("id", uid)` on `exam_uploads`. -/
def DB.updateUpload (db : DB) (uid : Nat) (f : Upload → Upload) : DB :=
  { db with uploads := db.uploads.map (fun u => if u.id == uid then f u else u) }

/-- Insertion sort step for `order("question_number")`. -/
def insertByNumber (q : Question) : List Question → List Question
  | [] => [q]
  | r :: rest =>
    if q.question_number ≤ r.question_number then q :: r :: rest
    else r :: insertByNumber q rest

/-- Stable sort by `question_number`. -/
def sortByNumber : List Question → List Question
  | [] => []
  | q :: rest => insertByNumber q (sortByNumber rest)

/-- The `questions` rows of one exam, ordered by `question_number`. -/
def DB.examQuestions (db : DB) (eid : Nat) : List Question :=
  sortByNumber (db.questions.filter (fun q => q.exam_id == eid))

/-! ### External adapters as oracles -/

/-- Result of an OCR extraction call
(`{status, text, confidence}`). -/
structure OcrResult where
  status : String
  text : String
  confidence : Int
deriving DecidableEq

/-- Result object returned by `AIGradingService.grade_question`. -/
structure GradeOutcome where
  marks_obtained : Int
  confidence_score : Int
  feedback : String
deriving DecidableEq

/-- Oracle for the OCR extraction of one stored file:
`(file_path, file_extension) ↦` result, or a raised exception. -/
def OcrFn : Type := String → String → Except String OcrResult

/-- Oracle for `ai_service.grade_question(question_data, student_answer)`;
`Except.error` models a raised exception (adapter failure, timeout). -/
def GradeFn : Type := Question → String → Except String GradeOutcome

/-- Oracle for `ocr_service._parse_answers_botanical`: extracted text ↦
association list keyed `"question_<n>"`. The parser itself lives in
`app/services/ocr_service.py`, outside this router; it is pure, so an
arbitrary function argument models it. -/
def ParseFn : Type := String → List (String × String)

/-- Models the lookup `parsed_answers.get("question_" + n, "")`. -/
def lookupAnswer (parsed : List (String × String)) (q : Question) : String :=
  match parsed.find? (fun p => p.1 == "question_" ++ toString q.question_number) with
  | some p => p.2
  | none => ""

/-! ### Grading orchestrator: `auto_grade_upload` -/

/-- Models `table("student_answers").insert(answer_data).execute()`:
returns the updated state and the `.data` list of inserted rows. -/
def DB.insertStudentAnswer (db : DB) (row : StudentAnswer) : DB × List StudentAnswer :=
  ({ db with student_answers := db.student_answers ++ [row],
             next_answer_id := db.next_answer_id + 1 }, [row])

/-- Models `table("grading_results").insert(grading_data).execute()`. -/
def DB.insertGradingResult (db : DB) (row : GradingResult) : DB :=
  { db with grading_results := db.grading_results ++ [row] }

/-- The `for question in questions:` loop of `auto_grade_upload`. The
accumulator is `(state, graded_count)`; an uncaught exception from the
grading adapter aborts the loop carrying the message, the state and the
count reached so far. -/
def gradeQuestions (grade : GradeFn) (parsed : List (String × String))
    (upload : Upload) (exam : Exam) :
    List Question → DB → Nat → Except (String × DB × Nat) (DB × Nat)
  | [], db, count => .ok (db, count)
  | q :: rest, db, count =>
    let student_answer := lookupAnswer parsed q
    if student_answer == "" then
      gradeQuestions grade parsed upload exam rest db count
    else
      match grade q student_answer with
      | .error e => .error (e, db, count)
      | .ok result =>
        let row : StudentAnswer :=
          { id := db.next_answer_id, upload_id := upload.id, question_id := q.id,
            student_id := upload.student_id, extracted_answer := student_answer,
            confidence_score := result.confidence_score }
        let inserted := db.insertStudentAnswer row
        match inserted.2 with
        | [] => gradeQuestions grade parsed upload exam rest inserted.1 count
        | a :: _ =>
          let gr : GradingResult :=
            { student_answer_id := a.id, exam_id := exam.id,
              student_id := upload.student_id, question_id := q.id,
              ai_assigned_marks := result.marks_obtained,
              final_marks := result.marks_obtained,
              ai_feedback := result.feedback, similarity_score := 0,
              ai_confidence := result.confidence_score,
              is_reviewed_by_teacher := false }
          gradeQuestions grade parsed upload exam rest (inserted.1.insertGradingResult gr)
            (count + 1)

/-- The body of `auto_grade_upload` before its `except Exception` handler:
look up the upload, the exam and its questions, early-return on any
missing data or empty OCR text, parse the stored text, run the per-question
loop. -/
def autoGradeBody (grade : GradeFn) (parse : ParseFn) (upload_id : Nat)
    (db : DB) : Except (String × DB × Nat) (DB × Nat) :=
  match db.findUpload upload_id with
  | none => .ok (db, 0)
  | some upload =>
    match db.findExam upload.exam_id with
    | none => .ok (db, 0)
    | some exam =>
      let questions := db.examQuestions upload.exam_id
      if questions.isEmpty then .ok (db, 0)
      else
        let ocr_text := upload.ocr_extracted_text
        if ocr_text == "" then .ok (db, 0)
        else
          gradeQuestions grade (parse ocr_text) upload exam questions db 0

/-- The function `auto_grade_upload(upload_id, supabase_admin)`, as its callers see it:
a call that could in principle raise, except that the function's own
catch-all exception handler swallows every exception, so the `.error` branch
never occurs. The returned `Nat` is the `graded_count` the body reached. -/
def auto_grade_upload (grade : GradeFn) (parse : ParseFn) (upload_id : Nat)
    (db : DB) : Except (String × DB) (DB × Nat) :=
  match autoGradeBody grade parse upload_id db with
  | .ok (db', n) => .ok (db', n)
  | .error (_, db', n) => .ok (db', n)

/-- The database state after `auto_grade_upload`, whichever way it ends. -/
def runAutoGrade (grade : GradeFn) (parse : ParseFn) (upload_id : Nat)
    (db : DB) : DB :=
  match auto_grade_upload grade parse upload_id db with
  | .ok (db', _) => db'
  | .error (_, db') => db'

/-- Number of `student_answers` rows for one `(upload, question)` pair. -/
def saCount (db : DB) (uid qid : Nat) : Nat :=
  (db.student_answers.filter (fun a => a.upload_id == uid && a.question_id == qid)).length

/-- Number of `grading_results` rows for one `(upload, question)` pair,
linked through `student_answer_id`. -/
def grCount (db : DB) (uid qid : Nat) : Nat :=
  (db.grading_results.filter (fun g => g.question_id == qid &&
    db.student_answers.any (fun a => a.id == g.student_answer_id && a.upload_id == uid))).length

/-! ### Background worker: `process_upload_async` -/

/-- Field patch of the `update` call for the `processing` transition. -/
def setProcessing (v : Upload) : Upload :=
  { v with processing_status := "processing" }

/-- Field patch of the `update` call finalizing an extraction failure:
terminal `failed`, the fixed message, empty stored text. -/
def setNoText (conf : Int) (v : Upload) : Upload :=
  { v with processing_status := "failed", error_message := "No text extracted",
           ocr_extracted_text := "", confidence_score := conf }

/-- Field patch of the `update` call finalizing a successful extraction. -/
def setProcessed (text : String) (conf : Int) (v : Upload) : Upload :=
  { v with processing_status := "processed", ocr_extracted_text := text,
           confidence_score := conf }

/-- Field patch of the `update` call of the exception handler. -/
def setFailed (e : String) (v : Upload) : Upload :=
  { v with processing_status := "failed", error_message := e }

/-- The `try` body of `process_upload_async`: mark the upload
`processing`, run OCR on the stored file, either finalize as `failed`
(adapter status not `success`, or whitespace-only text) or store the text,
mark `processed` and invoke `auto_grade_upload`. An `.error` carries the
state at the moment of the raise. -/
def processBody (ocr : OcrFn) (grade : GradeFn) (parse : ParseFn)
    (upload_id : Nat) (file_path file_extension : String) (db : DB) :
    Except (String × DB) DB :=
  let db1 := db.updateUpload upload_id setProcessing
  match ocr file_path file_extension with
  | .error e => .error (e, db1)
  | .ok ocr_result =>
    if ocr_result.status != "success" || pyStrip ocr_result.text == "" then
      .ok (db1.updateUpload upload_id (setNoText ocr_result.confidence))
    else
      let db2 := db1.updateUpload upload_id
        (setProcessed ocr_result.text ocr_result.confidence)
      match auto_grade_upload grade parse upload_id db2 with
      | .ok (db3, _) => .ok db3
      | .error (e, db3) => .error (e, db3)

/-- The worker `process_upload_async(upload_id, file_path, file_extension)`:
the body above wrapped in the `except Exception` handler that finalizes
the upload as `failed` with the exception's message. -/
def process_upload_async (ocr : OcrFn) (grade : GradeFn) (parse : ParseFn)
    (upload_id : Nat) (file_path file_extension : String) (db : DB) : DB :=
  match processBody ocr grade parse upload_id file_path file_extension db with
  | .ok db' => db'
  | .error (e, db') => db'.updateUpload upload_id (setFailed e)

/-! ### Ingestion: `batch_upload_exam_papers` -/

/-- Configuration (`app.core.config.settings`) as the router reads it. -/
structure Settings where
  ALLOWED_EXTENSIONS : String
  MAX_FILE_SIZE : Nat
  UPLOAD_PATH : String

/-- One element of the `files` form field: an in-memory uploaded file. A
missing filename is the empty string. -/
structure UFile where
  filename : String
  content : String
deriving DecidableEq

/-- The allow-list the batch route checks:
`settings.ALLOWED_EXTENSIONS.split(',')` with `'txt'` appended when
missing. -/
def batchAllowedExtensions (cfg : String) : List String :=
  let allowed := splitChar ',' cfg
  if allowed.contains "txt" then allowed else allowed ++ ["txt"]

/-- Whether the batch route accepts extension `ext` under configuration
`cfg`. -/
def batchAcceptsExt (cfg ext : String) : Bool :=
  (batchAllowedExtensions cfg).contains ext

/-- Whether the ZIP route accepts extension `ext`: its check is membership
in `settings.ALLOWED_EXTENSIONS.split(',')` unmodified. -/
def zipAcceptsExt (cfg ext : String) : Bool :=
  (splitChar ',' cfg).contains ext

/-- Outcome of one `insert(upload_data).execute()` call: it can raise, or
return no `.data` (which the route turns into
`raise Exception("Failed to create upload record")`), or succeed. -/
inductive InsertOutcome
  | raised (msg : String)
  | noData
  | ok
deriving DecidableEq

/-- An entry of the `uploads` list of the batch report. -/
structure SuccessEntry where
  upload_id : Nat
  student_id : String
  file_name : String
deriving DecidableEq

/-- An entry of the `failures` list of the batch report. -/
structure FailEntry where
  file : String
  student_id : String
  error : String
deriving DecidableEq

/-- The `try` body of one iteration of the batch loop: student lookup,
filename / extension / size validation (each failure appends one entry to
`failed_uploads` and continues), then the fallible storage write and
record insert. `saveErr` and `insertOut` are this item's slice of the
storage and database oracles. -/
def batchItemBody (s : Settings) (exam_id : Nat) (teacher_id : String)
    (saveErr : Option String) (insertOut : InsertOutcome)
    (db : DB) (file : UFile) (student_id : String) :
    Except String (DB × (SuccessEntry ⊕ FailEntry)) :=
  match db.students.find? (fun st => st.student_id == student_id) with
  | none =>
    .ok (db, .inr { file := file.filename, student_id := student_id,
                    error := "Student with ID " ++ student_id ++ " not found in database" })
  | some student =>
    if file.filename == "" then
      .ok (db, .inr { file := "unknown", student_id := student_id, error := "No filename provided" })
    else
      let file_extension := fileExtension file.filename
      if !(batchAllowedExtensions s.ALLOWED_EXTENSIONS).contains file_extension then
        .ok (db, .inr { file := file.filename, student_id := student_id,
                        error := "Invalid file type: " ++ file_extension })
      else if file.content.length > s.MAX_FILE_SIZE then
        .ok (db, .inr { file := file.filename, student_id := student_id, error := "File too large" })
      else
        match saveErr with
        | some e => .error e
        | none =>
          match insertOut with
          | .raised e => .error e
          | .noData => .error "Failed to create upload record"
          | .ok =>
            let uid := db.next_upload_id
            let row : Upload :=
              { id := uid, exam_id := exam_id, student_id := student.id,
                uploaded_by_teacher_id := teacher_id,
                file_name := file.filename,
                file_path := s.UPLOAD_PATH ++ toString exam_id ++ "/" ++ student_id ++ "/",
                file_size := file.content.length,
                file_type := file_extension,
                processing_status := "uploaded",
                ocr_extracted_text := "", confidence_score := 0,
                error_message := "" }
            .ok ({ db with uploads := db.uploads ++ [row], next_upload_id := uid + 1 },
              .inl { upload_id := uid, student_id := student_id, file_name := file.filename })

/-- One iteration of the batch loop with its `except Exception` handler:
a raise becomes one `failed_uploads` entry for this item. -/
def processBatchItem (s : Settings) (exam_id : Nat) (teacher_id : String)
    (saveErr : Option String) (insertOut : InsertOutcome)
    (db : DB) (file : UFile) (student_id : String) :
    DB × (SuccessEntry ⊕ FailEntry) :=
  match batchItemBody s exam_id teacher_id saveErr insertOut db file student_id with
  | .ok r => r
  | .error e => (db, .inr { file := file.filename, student_id := student_id, error := e })

/-- The loop `for idx, (file, student_id) in enumerate(zip(files, student_id_list))`:
threads the state and accumulates the two report lists in order. -/
def batchLoop (s : Settings) (exam_id : Nat) (teacher_id : String)
    (saveErr : Nat → Option String) (insertOut : Nat → InsertOutcome) :
    Nat → List (UFile × String) → DB → DB × List SuccessEntry × List FailEntry
  | _, [], db => (db, [], [])
  | idx, (file, sid) :: rest, db =>
    let step := processBatchItem s exam_id teacher_id (saveErr idx) (insertOut idx) db file sid
    let recur := batchLoop s exam_id teacher_id saveErr insertOut (idx + 1) rest step.1
    match step.2 with
    | .inl e => (recur.1, e :: recur.2.1, recur.2.2)
    | .inr e => (recur.1, recur.2.1, e :: recur.2.2)

/-- The response body of the batch route. -/
structure BatchReport where
  exam_id : Nat
  total_files : Nat
  successful_uploads : Nat
  failed_uploads : Nat
  uploads : List SuccessEntry
  failures : List FailEntry
deriving DecidableEq

/-- Models the parse `[sid.strip() for sid in student_ids.split(',')]`. -/
def parseStudentIds (student_ids : String) : List String :=
  (splitChar ',' student_ids).map pyStrip

/-- Packs the loop outcome into the response body of the batch route. -/
def batchFinish (eid total : Nat)
    (r : DB × List SuccessEntry × List FailEntry) : DB × BatchReport :=
  (r.1, { exam_id := eid, total_files := total,
          successful_uploads := r.2.1.length, failed_uploads := r.2.2.length,
          uploads := r.2.1, failures := r.2.2 })

/-- The route `batch_upload_exam_papers(exam_id, files, student_ids, teacher_id)`.
Whole-call failures (`HTTPException` 400/404) are the `.error` branch:
count mismatch between `files` and the comma-split `student_ids`, or a
missing exam. Everything else is per-item. -/
def batch_upload_exam_papers (s : Settings) (saveErr : Nat → Option String)
    (insOut : Nat → InsertOutcome) (exam_id : Nat) (files : List UFile)
    (student_ids : String) (teacher_id : String) (db : DB) :
    Except String (DB × BatchReport) :=
  if files.length != (parseStudentIds student_ids).length then
    .error "Number of files must match number of student IDs"
  else
    match db.findExam exam_id with
    | none => .error "Exam not found"
    | some _ =>
      .ok (batchFinish exam_id files.length
        (batchLoop s exam_id teacher_id saveErr insOut 0
          (files.zip (parseStudentIds student_ids)) db))

/-! ### `delete_upload` -/

/-- The route `delete_upload(upload_id, teacher_id)`: 404 when the upload row is
absent, 403 when the requester is not the uploading teacher, otherwise
remove the stored file and delete the row (the delete cascades to the
upload's `student_answers` and their `grading_results`). -/
def delete_upload (upload_id : Nat) (teacher_id : String) (db : DB) :
    Except String (DB × String) :=
  match db.findUpload upload_id with
  | none => .error "Upload not found"
  | some u =>
    if u.uploaded_by_teacher_id != teacher_id then
      .error "Unauthorized to delete this upload"
    else
      let removedAnswers := db.student_answers.filter (fun a => a.upload_id == upload_id)
      .ok ({ db with
        uploads := db.uploads.filter (fun v => !(v.id == upload_id)),
        student_answers := db.student_answers.filter (fun a => !(a.upload_id == upload_id)),
        grading_results := db.grading_results.filter
          (fun g => !(removedAnswers.any (fun a => a.id == g.student_answer_id))) },
        "Upload deleted successfully")

/-! ### `reprocess_upload` and `regrade_all_uploads` -/

/-- The route `reprocess_upload(upload_id)`: look the upload up (404 when absent,
re-raised as a 500 by the catch-all) and call `auto_grade_upload` on the
state as stored — no OCR adapter is involved. -/
def reprocess_upload (grade : GradeFn) (parse : ParseFn) (upload_id : Nat)
    (db : DB) : Except String (DB × String) :=
  match db.findUpload upload_id with
  | none => .error "Upload not found"
  | some _ =>
    match auto_grade_upload grade parse upload_id db with
    | .ok (db', _) => .ok (db', "Reprocessing completed")
    | .error (e, _) => .error e

/-- One entry of the `results` list of `regrade_all_uploads`. -/
structure RegradeEntry where
  upload_id : Nat
  status : String
  error : Option String
deriving DecidableEq

/-- The `for upload in uploads_result.data:` loop of
`regrade_all_uploads`: each iteration awaits `auto_grade_upload` inside
`try/except` and records a `success` or `failed` entry. -/
def regradeLoop (grade : GradeFn) (parse : ParseFn) :
    List Nat → DB → DB × List RegradeEntry
  | [], db => (db, [])
  | uid :: rest, db =>
    match auto_grade_upload grade parse uid db with
    | .ok (db1, _) =>
      let r := regradeLoop grade parse rest db1
      (r.1, { upload_id := uid, status := "success", error := none } :: r.2)
    | .error (e, db1) =>
      let r := regradeLoop grade parse rest db1
      (r.1, { upload_id := uid, status := "failed", error := some e } :: r.2)

/-- The response body of the regrade-all route. -/
structure RegradeReport where
  exam_id : Nat
  total_uploads : Nat
  successful : Nat
  failed : Nat
  results : List RegradeEntry
deriving DecidableEq

/-- Selects `exam_uploads` ids with `processing_status == "processed"`
for one exam. -/
def processedIds (db : DB) (eid : Nat) : List Nat :=
  (db.uploads.filter (fun u =>
    u.exam_id == eid && u.processing_status == "processed")).map (fun u => u.id)

/-- Packs the loop outcome into the response body of the regrade route. -/
def regradeFinish (eid : Nat) (r : DB × List RegradeEntry) : DB × RegradeReport :=
  (r.1, { exam_id := eid, total_uploads := r.2.length,
          successful := (r.2.filter (fun e => e.status == "success")).length,
          failed := r.2.length - (r.2.filter (fun e => e.status == "success")).length,
          results := r.2 })

/-- The route `regrade_all_uploads(exam_id)`: select the exam's uploads
with `processing_status == "processed"` (404 when there are none),
regrade each in turn, and count the `success` entries. -/
def regrade_all_uploads (grade : GradeFn) (parse : ParseFn) (exam_id : Nat)
    (db : DB) : Except String (DB × RegradeReport) :=
  if (processedIds db exam_id).isEmpty then .error "No processed uploads found"
  else .ok (regradeFinish exam_id
    (regradeLoop grade parse (processedIds db exam_id) db))

/-! ### Derived observations and proof-side notions -/

/-- The `graded_count` the body of `auto_grade_upload` reached. -/
def autoGradeCount (grade : GradeFn) (parse : ParseFn) (upload_id : Nat)
    (db : DB) : Nat :=
  match autoGradeBody grade parse upload_id db with
  | .ok (_, n) => n
  | .error (_, _, n) => n

/-- State reached by the per-question loop, whichever way it ends. -/
def gradeOutDB : Except (String × DB × Nat) (DB × Nat) → DB
  | .ok (db, _) => db
  | .error (_, db, _) => db

/-- State `db'` only appends to the two grading child tables of `db` and leaves
every other table untouched. -/
def DB.Extends (db db' : DB) : Prop :=
  db'.exams = db.exams ∧ db'.students = db.students ∧
  db'.questions = db.questions ∧ db'.uploads = db.uploads ∧
  db.student_answers <+: db'.student_answers ∧
  db.grading_results <+: db'.grading_results

/-- The pair `(successful, failed)` of the regrade-all report, for concrete runs. -/
def regradeSummary (grade : GradeFn) (parse : ParseFn) (exam_id : Nat)
    (db : DB) : Nat × Nat :=
  match regrade_all_uploads grade parse exam_id db with
  | .ok (_, r) => (r.successful, r.failed)
  | .error _ => (0, 0)

/-- Database state after `reprocess_upload`, for concrete runs. -/
def reprocessOut (grade : GradeFn) (parse : ParseFn) (upload_id : Nat)
    (db : DB) : DB :=
  match reprocess_upload grade parse upload_id db with
  | .ok (db', _) => db'
  | .error _ => db

/-- Database state after a successful `delete_upload`, for concrete runs. -/
def deleteOut (upload_id : Nat) (teacher_id : String) (db : DB) : Option DB :=
  match delete_upload upload_id teacher_id db with
  | .ok (db', _) => some db'
  | .error _ => none

/-! ### A concrete exam, used by counterexamples and witnesses -/

/-- A concrete exam row. -/
def examA : Exam := { id := 1, exam_name := "Midterm", total_marks := 100 }

/-- Question 1 of the exam. -/
def q1 : Question :=
  { id := 10, exam_id := 1, question_number := 1, question_text := "Define a cat.",
    max_marks := 5, sample_answer := "A small cat.", keywords := ["cat"] }

/-- Question 2 of the exam. -/
def q2 : Question :=
  { id := 11, exam_id := 1, question_number := 2, question_text := "Define a dog.",
    max_marks := 5, sample_answer := "A small dog.", keywords := ["dog"] }

/-- A roster student. -/
def stu1 : Student := { id := 7, student_id := "STU001", full_name := "Alice" }

/-- A processed submission of `stu1` for the exam. -/
def upload100 : Upload :=
  { id := 100, exam_id := 1, student_id := 7, uploaded_by_teacher_id := "T1",
    file_name := "a.txt", file_path := "up/1/STU001/a.txt", file_size := 7,
    file_type := "txt", processing_status := "processed",
    ocr_extracted_text := "Q1: cat", confidence_score := 90, error_message := "" }

/-- Base state: one exam, one question, one processed submission, no
grading rows yet. -/
def baseDB : DB :=
  { exams := [examA], students := [stu1], questions := [q1],
    uploads := [upload100], student_answers := [], grading_results := [],
    next_upload_id := 500, next_answer_id := 1000 }

/-- A grading adapter that succeeds on every question. -/
def g0 : GradeFn := fun _ _ =>
  .ok { marks_obtained := 4, confidence_score := 8, feedback := "good" }

/-- A parser oracle mapping both question keys to the whole text. -/
def p0 : ParseFn := fun t => [("question_1", t), ("question_2", t)]

/-- A grading adapter that raises on question 1 and succeeds elsewhere. -/
def g2 : GradeFn := fun q _ =>
  if q.question_number == 1 then .error "grading adapter down"
  else .ok { marks_obtained := 3, confidence_score := 6, feedback := "fine" }

/-- State `baseDB` with a second question, so that a failure on question 1 can
be observed against question 2. -/
def twoQuestionDB : DB := { baseDB with questions := [q1, q2] }

/-- A second and a third processed submission for the exam; the stored
text `"boom"` is the one the adapter `g6` raises on. -/
def upload101 : Upload :=
  { upload100 with id := 101, ocr_extracted_text := "boom" }

/-- Third processed submission. -/
def upload102 : Upload :=
  { upload100 with id := 102, ocr_extracted_text := "Q1: bird" }

/-- State with three processed submissions for the exam. -/
def threeUploadDB : DB :=
  { baseDB with uploads := [upload100, upload101, upload102] }

/-- A grading adapter that raises exactly on the answer text `"boom"`
(i.e. on submission `upload101`). -/
def g6 : GradeFn := fun _ answer =>
  if answer == "boom" then .error "model crashed"
  else .ok { marks_obtained := 2, confidence_score := 5, feedback := "ok" }

/-- State `baseDB` with the submission in terminal `failed` state but non-empty
stored text, used to observe what `reprocess_upload` re-runs. -/
def failedStatusDB : DB :=
  { baseDB with
    uploads := [{ upload100 with processing_status := "failed", error_message := "boom" }] }

/-- State `baseDB` with the submission still in `processing`, used to observe
`delete_upload` on an in-flight submission. -/
def processingDB : DB :=
  { baseDB with uploads := [{ upload100 with processing_status := "processing" }] }

/-- A concrete configuration whose allow-list has no `txt` entry, matching
the router comment that `txt` was missing from the configured list. -/
def cfgNoTxt : String := "pdf,jpg,jpeg,png"

/-- Concrete settings for batch-upload runs. -/
def s0 : Settings :=
  { ALLOWED_EXTENSIONS := cfgNoTxt, MAX_FILE_SIZE := 1000, UPLOAD_PATH := "up/" }

/-- Storage oracle that never raises. -/
def noSaveErr : Nat → Option String := fun _ => none

/-- Insert oracle that always succeeds. -/
def allInsertsOk : Nat → InsertOutcome := fun _ => .ok

/-- Two files for a batch-upload run: a valid `txt` for `STU001` and a
`pdf` for an unknown student. -/
def batchFiles : List UFile :=
  [{ filename := "a.txt", content := "Q1: cat" },
   { filename := "b.pdf", content := "Q1: dog" }]

/-- An OCR oracle that succeeds with the text of the base scenario. -/
def ocrOk : OcrFn := fun _ _ =>
  .ok { status := "success", text := "Q1: cat", confidence := 80 }

/-- An OCR oracle that reports failure with whitespace-only text. -/
def ocrFail : OcrFn := fun _ _ =>
  .ok { status := "failure", text := " ", confidence := 0 }

/-- An OCR oracle that raises. -/
def ocrRaise : OcrFn := fun _ _ => .error "ocr service unreachable"

/-! ### Helper lemmas -/

theorem extends_refl (db : DB) : db.Extends db :=
  ⟨rfl, rfl, rfl, rfl, List.prefix_refl _, List.prefix_refl _⟩

theorem extends_trans {a b c : DB} (h1 : a.Extends b) (h2 : b.Extends c) :
    a.Extends c := by
  obtain ⟨he1, hs1, hq1, hu1, hp1, hr1⟩ := h1
  obtain ⟨he2, hs2, hq2, hu2, hp2, hr2⟩ := h2
  exact ⟨he2.trans he1, hs2.trans hs1, hq2.trans hq1, hu2.trans hu1,
    hp1.trans hp2, hr1.trans hr2⟩

theorem extends_insert_sa (db : DB) (row : StudentAnswer) :
    db.Extends (db.insertStudentAnswer row).1 :=
  ⟨rfl, rfl, rfl, rfl, List.prefix_append _ _, List.prefix_refl _⟩

theorem extends_insert_gr (db : DB) (row : GradingResult) :
    db.Extends (db.insertGradingResult row) :=
  ⟨rfl, rfl, rfl, rfl, List.prefix_refl _, List.prefix_append _ _⟩

theorem gradeQuestions_extends (g : GradeFn) (parsed : List (String × String))
    (u : Upload) (ex : Exam) (qs : List Question) :
    ∀ (db : DB) (c : Nat),
      db.Extends (gradeOutDB (gradeQuestions g parsed u ex qs db c)) := by
  induction qs with
  | nil => intro db c; exact extends_refl db
  | cons q rest ih =>
    intro db c
    simp only [gradeQuestions]
    split
    · exact ih db c
    · cases hg : g q (lookupAnswer parsed q) with
      | error e => exact extends_refl db
      | ok result =>
        simp only [DB.insertStudentAnswer]
        exact extends_trans
          (extends_trans (extends_insert_sa db _) (extends_insert_gr _ _)) (ih _ _)

theorem runAutoGrade_eq_body (g : GradeFn) (p : ParseFn) (uid : Nat) (db : DB) :
    runAutoGrade g p uid db = gradeOutDB (autoGradeBody g p uid db) := by
  unfold runAutoGrade auto_grade_upload gradeOutDB
  cases h : autoGradeBody g p uid db with
  | ok x => obtain ⟨a, b⟩ := x; rfl
  | error x => obtain ⟨e, a, b⟩ := x; rfl

theorem auto_grade_upload_eq (g : GradeFn) (p : ParseFn) (uid : Nat) (db : DB) :
    auto_grade_upload g p uid db
      = .ok (runAutoGrade g p uid db, autoGradeCount g p uid db) := by
  rw [runAutoGrade_eq_body]
  unfold auto_grade_upload autoGradeCount gradeOutDB
  cases h : autoGradeBody g p uid db with
  | ok x => obtain ⟨a, b⟩ := x; rfl
  | error x => obtain ⟨e, a, b⟩ := x; rfl

theorem autoGradeBody_extends (g : GradeFn) (p : ParseFn) (uid : Nat) (db : DB) :
    db.Extends (gradeOutDB (autoGradeBody g p uid db)) := by
  unfold autoGradeBody
  split
  · exact extends_refl db
  · split
    · exact extends_refl db
    · dsimp only
      split
      · exact extends_refl db
      · split
        · exact extends_refl db
        · exact gradeQuestions_extends _ _ _ _ _ db 0

theorem runAutoGrade_extends (g : GradeFn) (p : ParseFn) (uid : Nat) (db : DB) :
    db.Extends (runAutoGrade g p uid db) := by
  rw [runAutoGrade_eq_body]
  exact autoGradeBody_extends g p uid db

theorem runAutoGrade_uploads (g : GradeFn) (p : ParseFn) (uid : Nat) (db : DB) :
    (runAutoGrade g p uid db).uploads = db.uploads :=
  (runAutoGrade_extends g p uid db).2.2.2.1

theorem findUpload_congr_uploads {db db' : DB} (h : db'.uploads = db.uploads)
    (uid : Nat) : db'.findUpload uid = db.findUpload uid := by
  unfold DB.findUpload
  rw [h]

theorem find?_map_update (uid : Nat) (f : Upload → Upload)
    (hf : ∀ u, (f u).id = u.id) (us : List Upload) :
    (us.map (fun u => if u.id == uid then f u else u)).find? (fun u => u.id == uid)
      = (us.find? (fun u => u.id == uid)).map f := by
  induction us with
  | nil => rfl
  | cons u rest ih =>
    by_cases h : (u.id == uid) = true
    · have hfu : ((f u).id == uid) = true := by rw [hf u]; exact h
      rw [List.map_cons, if_pos h,
        List.find?_cons_of_pos (p := fun v : Upload => v.id == uid) _ hfu,
        List.find?_cons_of_pos (p := fun v : Upload => v.id == uid) _ h]
      rfl
    · rw [List.map_cons, if_neg h,
        List.find?_cons_of_neg (p := fun v : Upload => v.id == uid) _ h,
        List.find?_cons_of_neg (p := fun v : Upload => v.id == uid) _ h]
      exact ih

theorem findUpload_updateUpload (db : DB) (uid : Nat) (f : Upload → Upload)
    (hf : ∀ u, (f u).id = u.id) :
    (db.updateUpload uid f).findUpload uid = (db.findUpload uid).map f :=
  find?_map_update uid f hf db.uploads

theorem batchLoop_length (s : Settings) (eid : Nat) (tid : String)
    (saveErr : Nat → Option String) (insOut : Nat → InsertOutcome)
    (items : List (UFile × String)) :
    ∀ (idx : Nat) (db : DB),
      (batchLoop s eid tid saveErr insOut idx items db).2.1.length +
        (batchLoop s eid tid saveErr insOut idx items db).2.2.length
        = items.length := by
  induction items with
  | nil => intro idx db; rfl
  | cons item rest ih =>
    intro idx db
    obtain ⟨file, sid⟩ := item
    simp only [batchLoop]
    cases hstep : (processBatchItem s eid tid (saveErr idx) (insOut idx) db file sid).2 with
    | inl e =>
      simp only [List.length_cons]
      have := ih (idx + 1) (processBatchItem s eid tid (saveErr idx) (insOut idx) db file sid).1
      omega
    | inr e =>
      simp only [List.length_cons]
      have := ih (idx + 1) (processBatchItem s eid tid (saveErr idx) (insOut idx) db file sid).1
      omega

theorem regradeLoop_entries (g : GradeFn) (p : ParseFn) (ids : List Nat) :
    ∀ db : DB,
      (regradeLoop g p ids db).2.length = ids.length ∧
      ∀ e ∈ (regradeLoop g p ids db).2, e.status = "success" := by
  induction ids with
  | nil =>
    intro db
    exact ⟨rfl, by intro e he; cases he⟩
  | cons uid rest ih =>
    intro db
    simp only [regradeLoop, auto_grade_upload_eq]
    constructor
    · simp only [List.length_cons, (ih _).1]
    · intro e he
      rw [List.mem_cons] at he
      rcases he with he | he
      · rw [he]
      · exact (ih _).2 e he

theorem reprocess_eq (g : GradeFn) (p : ParseFn) (uid : Nat) (db : DB)
    (u : Upload) (h : db.findUpload uid = some u) :
    reprocess_upload g p uid db
      = .ok (runAutoGrade g p uid db, "Reprocessing completed") := by
  unfold reprocess_upload
  rw [h, auto_grade_upload_eq]

/-! ### Claim C1 -/

/-- C1, as stated, is false: `auto_grade_upload` persists with plain
`insert` calls and never deletes or updates prior `student_answers` /
`grading_results` rows, so re-invoking it on the same unchanged processed
submission accumulates a second pair instead of replacing the first. On
the concrete one-question scenario, the row count per
`(submission_id, question_id)` is 1 after the first invocation and 2 —
not 1 — after the second. -/
theorem c1_counterexample :
    saCount (runAutoGrade g0 p0 100 baseDB) 100 10 = 1 ∧
    saCount (runAutoGrade g0 p0 100 (runAutoGrade g0 p0 100 baseDB)) 100 10 ≠
      saCount (runAutoGrade g0 p0 100 baseDB) 100 10 ∧
    grCount (runAutoGrade g0 p0 100 (runAutoGrade g0 p0 100 baseDB)) 100 10 ≠
      grCount (runAutoGrade g0 p0 100 baseDB) 100 10 := by
  refine ⟨by decide, by decide, by decide⟩

/-- C1 (amended): re-invoking `grade_submission` (`auto_grade_upload`) on
the same unchanged processed submission never replaces the prior
`(StudentAnswer, GradingResult)` pair: every invocation only appends to
the two tables, leaving all existing rows in place as a list prefix,
so duplicate rows accumulate per `(submission_id, question_id)` — in the
concrete one-question scenario the counts double from 1 to 2. -/
theorem c1_regrade_appends_rows :
    (∀ (g : GradeFn) (p : ParseFn) (uid : Nat) (db : DB),
      db.student_answers <+: (runAutoGrade g p uid db).student_answers ∧
      db.grading_results <+: (runAutoGrade g p uid db).grading_results) ∧
    saCount (runAutoGrade g0 p0 100 baseDB) 100 10 = 1 ∧
    saCount (runAutoGrade g0 p0 100 (runAutoGrade g0 p0 100 baseDB)) 100 10 = 2 ∧
    grCount (runAutoGrade g0 p0 100 (runAutoGrade g0 p0 100 baseDB)) 100 10 = 2 := by
  refine ⟨fun g p uid db => ?_, by decide, by decide, by decide⟩
  exact ⟨(runAutoGrade_extends g p uid db).2.2.2.2.1,
    (runAutoGrade_extends g p uid db).2.2.2.2.2⟩

/-! ### Claim C2 -/

/-- C2, as stated, is false: in the two-question scenario the grading
adapter raises on question 1; question 2 has a non-empty parsed answer
and its own grading call would succeed, yet after `auto_grade_upload` no
`student_answers` row exists for question 2 (id 11) — the loop has no
per-question exception handler, so the raise aborts the remaining
questions. -/
theorem c2_counterexample :
    lookupAnswer (p0 "Q1: cat") q2 ≠ "" ∧
    (g2 q2 (lookupAnswer (p0 "Q1: cat") q2)).isOk = true ∧
    (g2 q1 (lookupAnswer (p0 "Q1: cat") q1)).isOk = false ∧
    saCount (runAutoGrade g2 p0 100 twoQuestionDB) 100 11 = 0 := by
  refine ⟨by decide, by decide, by decide, by decide⟩

/-- C2 (amended): a Grading Adapter exception on one question is caught
only by the function-level handler of `auto_grade_upload`, not
per-question: the per-question loop stops at the first failing call with
the state exactly as it was before that question, so no remaining
question of the submission is graded and no further rows are persisted
(rows of earlier questions persist; the exception does not escape). -/
theorem c2_failure_aborts_remaining (g : GradeFn)
    (parsed : List (String × String)) (u : Upload) (ex : Exam)
    (q : Question) (rest : List Question) (db : DB) (c : Nat) (e : String)
    (ha : lookupAnswer parsed q ≠ "")
    (hg : g q (lookupAnswer parsed q) = .error e) :
    gradeQuestions g parsed u ex (q :: rest) db c = .error (e, db, c) := by
  have hb : (lookupAnswer parsed q == "") = false := by
    simp [ha]
  simp only [gradeQuestions, hb]
  rw [hg]
  rfl

/-- Witness for C2 (amended) at the concrete two-question scenario. -/
theorem c2_failure_aborts_remaining_witness :
    gradeQuestions g2 (p0 "Q1: cat") upload100 examA (q1 :: [q2]) baseDB 0
      = .error ("grading adapter down", baseDB, 0) :=
  c2_failure_aborts_remaining g2 (p0 "Q1: cat") upload100 examA q1 [q2]
    baseDB 0 "grading adapter down" (by decide) (by decide)

theorem findUpload_double_update (db : DB) (uid : Nat) (f1 f2 : Upload → Upload)
    (h1 : ∀ v, (f1 v).id = v.id) (h2 : ∀ v, (f2 v).id = v.id) :
    ((db.updateUpload uid f1).updateUpload uid f2).findUpload uid
      = (db.findUpload uid).map (fun v => f2 (f1 v)) := by
  rw [findUpload_updateUpload _ _ _ h2, findUpload_updateUpload _ _ _ h1]
  cases db.findUpload uid <;> rfl

theorem setProcessing_id (v : Upload) : (setProcessing v).id = v.id := rfl

theorem setFailed_id (e : String) (v : Upload) : (setFailed e v).id = v.id := rfl

theorem setNoText_id (c : Int) (v : Upload) : (setNoText c v).id = v.id := rfl

theorem setProcessed_id (t : String) (c : Int) (v : Upload) :
    (setProcessed t c v).id = v.id := rfl

/-! ### Claim C3 -/

/-- C3: for every dequeued submission present in the store, the worker
`process_upload_async` terminates with the submission in `processed` or
`failed`, whatever the OCR adapter does (raise, report failure, or
succeed) and whatever grading does — the catch-all handler finalizes to
`failed` and `auto_grade_upload` swallows all its own exceptions without
touching `exam_uploads`. -/
theorem c3_terminal_status (ocr : OcrFn) (g : GradeFn) (p : ParseFn)
    (uid : Nat) (fp ext : String) (db : DB) (u : Upload)
    (h : db.findUpload uid = some u) :
    ∃ u', (process_upload_async ocr g p uid fp ext db).findUpload uid = some u' ∧
      (u'.processing_status = "processed" ∨ u'.processing_status = "failed") := by
  unfold process_upload_async processBody
  dsimp only
  cases hocr : ocr fp ext with
  | error e =>
    refine ⟨setFailed e (setProcessing u), ?_, Or.inr rfl⟩
    show ((db.updateUpload uid setProcessing).updateUpload uid (setFailed e)).findUpload uid = _
    rw [findUpload_double_update db uid setProcessing (setFailed e)
      setProcessing_id (setFailed_id e), h]
    rfl
  | ok r =>
    dsimp only
    by_cases hcond : (r.status != "success" || (pyStrip r.text == "")) = true
    · rw [if_pos hcond]
      refine ⟨setNoText r.confidence (setProcessing u), ?_, Or.inr rfl⟩
      show ((db.updateUpload uid setProcessing).updateUpload uid
        (setNoText r.confidence)).findUpload uid = _
      rw [findUpload_double_update db uid setProcessing (setNoText r.confidence)
        setProcessing_id (setNoText_id r.confidence), h]
      rfl
    · rw [if_neg hcond, auto_grade_upload_eq]
      refine ⟨setProcessed r.text r.confidence (setProcessing u), ?_, Or.inl rfl⟩
      show (runAutoGrade g p uid ((db.updateUpload uid setProcessing).updateUpload uid
        (setProcessed r.text r.confidence))).findUpload uid = _
      rw [findUpload_congr_uploads (runAutoGrade_uploads _ _ _ _) uid,
        findUpload_double_update db uid setProcessing
          (setProcessed r.text r.confidence) setProcessing_id
          (setProcessed_id r.text r.confidence), h]
      rfl

/-- Witness for C3 on the base scenario with a succeeding OCR adapter. -/
theorem c3_terminal_status_witness :
    ∃ u', (process_upload_async ocrOk g0 p0 100 "up/1/STU001/a.txt" "txt" baseDB).findUpload 100
        = some u' ∧
      (u'.processing_status = "processed" ∨ u'.processing_status = "failed") :=
  c3_terminal_status ocrOk g0 p0 100 "up/1/STU001/a.txt" "txt" baseDB upload100 (by decide)

/-! ### Claim C4 -/

/-- C4: when the extraction adapter reports a non-success status or
whitespace-only text, the worker finalizes the submission as `failed`
with the non-empty message `"No text extracted"`, clears the stored text
and stops; invoking `auto_grade_upload` afterwards grades zero questions
and leaves the state untouched (no `student_answers` or
`grading_results` rows appear). -/
theorem c4_extraction_failure (ocr : OcrFn) (g : GradeFn) (p : ParseFn)
    (uid : Nat) (fp ext : String) (db : DB) (u : Upload) (r : OcrResult)
    (h : db.findUpload uid = some u) (hr : ocr fp ext = .ok r)
    (hfail : r.status ≠ "success" ∨ pyStrip r.text = "") :
    ∃ u', (process_upload_async ocr g p uid fp ext db).findUpload uid = some u' ∧
      u'.processing_status = "failed" ∧
      u'.error_message = "No text extracted" ∧ u'.error_message ≠ "" ∧
      u'.ocr_extracted_text = "" ∧
      auto_grade_upload g p uid (process_upload_async ocr g p uid fp ext db)
        = .ok (process_upload_async ocr g p uid fp ext db, 0) := by
  have hcond : (r.status != "success" || (pyStrip r.text == "")) = true := by
    rcases hfail with h1 | h1
    · simp [bne_iff_ne, h1]
    · simp [h1]
  have hproc : process_upload_async ocr g p uid fp ext db
      = (db.updateUpload uid setProcessing).updateUpload uid
          (setNoText r.confidence) := by
    unfold process_upload_async processBody
    dsimp only
    rw [hr]
    dsimp only
    rw [if_pos hcond]
  have hfind : (process_upload_async ocr g p uid fp ext db).findUpload uid
      = some (setNoText r.confidence (setProcessing u)) := by
    rw [hproc, findUpload_double_update db uid setProcessing
      (setNoText r.confidence) setProcessing_id (setNoText_id r.confidence), h]
    rfl
  refine ⟨setNoText r.confidence (setProcessing u), hfind, rfl, rfl,
    show ("No text extracted" : String) ≠ "" by decide, rfl, ?_⟩
  unfold auto_grade_upload autoGradeBody
  rw [hfind]
  dsimp only
  cases hex : (process_upload_async ocr g p uid fp ext db).findExam
      (setNoText r.confidence (setProcessing u)).exam_id with
  | none => rfl
  | some ex =>
    dsimp only
    by_cases hq : ((process_upload_async ocr g p uid fp ext db).examQuestions
        (setNoText r.confidence (setProcessing u)).exam_id).isEmpty = true
    · rw [if_pos hq]
    · rw [if_neg hq]
      rfl

/-- Witness for C4 on the base scenario with a failing OCR adapter. -/
theorem c4_extraction_failure_witness :
    ∃ u', (process_upload_async ocrFail g0 p0 100 "up/1/STU001/a.txt" "txt" baseDB).findUpload 100
        = some u' ∧
      u'.processing_status = "failed" ∧
      u'.error_message = "No text extracted" ∧ u'.error_message ≠ "" ∧
      u'.ocr_extracted_text = "" ∧
      auto_grade_upload g0 p0 100 (process_upload_async ocrFail g0 p0 100 "up/1/STU001/a.txt" "txt" baseDB)
        = .ok (process_upload_async ocrFail g0 p0 100 "up/1/STU001/a.txt" "txt" baseDB, 0) :=
  c4_extraction_failure ocrFail g0 p0 100 "up/1/STU001/a.txt" "txt" baseDB
    upload100 { status := "failure", text := " ", confidence := 0 }
    (by decide) (by decide) (by decide)

/-! ### Claim C5 -/

/-- C5: whenever the batch sizes agree and the exam exists, the call
succeeds and every file contributes exactly one report entry — the
lengths of the succeeded and failed lists sum to the number of files —
for every behaviour of the storage and record-insert oracles (per-item
raises included), so one item's failure never aborts the others. -/
theorem c5_batch_partition (s : Settings) (saveErr : Nat → Option String)
    (insOut : Nat → InsertOutcome) (eid : Nat) (files : List UFile)
    (sids tid : String) (db : DB) (ex : Exam)
    (hlen : files.length = (parseStudentIds sids).length)
    (hex : db.findExam eid = some ex) :
    ∃ db' rep,
      batch_upload_exam_papers s saveErr insOut eid files sids tid db
        = .ok (db', rep) ∧
      rep.uploads.length + rep.failures.length = files.length ∧
      rep.successful_uploads + rep.failed_uploads = files.length ∧
      rep.total_files = files.length := by
  unfold batch_upload_exam_papers
  have hbne : (files.length != (parseStudentIds sids).length) = false := by
    simp [hlen]
  rw [hbne]
  rw [if_neg Bool.false_ne_true]
  rw [hex]
  have hzip : (files.zip (parseStudentIds sids)).length = files.length := by
    rw [List.length_zip, ← hlen, Nat.min_self]
  have hsum := batchLoop_length s eid tid saveErr insOut
    (files.zip (parseStudentIds sids)) 0 db
  rw [hzip] at hsum
  exact ⟨_, _, rfl, hsum, hsum, rfl⟩

/-- Witness for C5: two files, a valid `txt` for the known student and a
`pdf` for an unknown one; the report partitions them 1 / 1. -/
theorem c5_batch_partition_witness :
    ∃ db' rep,
      batch_upload_exam_papers s0 noSaveErr allInsertsOk 1 batchFiles
        "STU001, STU404" "T1" baseDB = .ok (db', rep) ∧
      rep.uploads.length + rep.failures.length = batchFiles.length ∧
      rep.successful_uploads + rep.failed_uploads = batchFiles.length ∧
      rep.total_files = batchFiles.length :=
  c5_batch_partition s0 noSaveErr allInsertsOk 1 batchFiles "STU001, STU404"
    "T1" baseDB examA (by decide) (by decide)

/-! ### Claim C6 -/

/-- C6, as stated, is false: on an exam with three `processed`
submissions where the grading adapter raises on the second submission's
only answer (`"boom"`), the regrade-all report does not show 2 succeeded
and 1 failed — it shows 3 succeeded and 0 failed, because
`auto_grade_upload` swallows the exception before the per-submission
`try/except` of `regrade_all_uploads` can see it. -/
theorem c6_counterexample :
    lookupAnswer (p0 upload101.ocr_extracted_text) q1 = "boom" ∧
    g6 q1 "boom" = Except.error "model crashed" ∧
    regradeSummary g6 p0 1 threeUploadDB = (3, 0) ∧
    regradeSummary g6 p0 1 threeUploadDB ≠ (2, 1) := by
  refine ⟨by decide, by decide, by decide, by decide⟩

/-- C6 (amended): `regrade_all_uploads` iterates every `processed`
submission of the exam and always completes the whole iteration, but its
per-submission failure accounting is dead code: since `auto_grade_upload`
never lets an exception escape, every submission is recorded as
`success`, and the report always has `failed = 0` and
`successful = total_uploads`, whatever the grading adapter does. -/
theorem c6_regrade_reports_all_success (g : GradeFn) (p : ParseFn)
    (eid : Nat) (db : DB)
    (h : (processedIds db eid).isEmpty = false) :
    ∃ db' rep, regrade_all_uploads g p eid db = .ok (db', rep) ∧
      rep.failed = 0 ∧ rep.successful = rep.total_uploads ∧
      ∀ e ∈ rep.results, e.status = "success" := by
  unfold regrade_all_uploads
  rw [h]
  rw [if_neg Bool.false_ne_true]
  have hall := (regradeLoop_entries g p (processedIds db eid) db).2
  have hfilter : ((regradeLoop g p (processedIds db eid) db).2.filter
      (fun e => e.status == "success")).length
      = (regradeLoop g p (processedIds db eid) db).2.length := by
    congr 1
    rw [List.filter_eq_self]
    intro e he
    rw [hall e he]
    rfl
  refine ⟨_, _, rfl, ?_, ?_, hall⟩
  · show (regradeLoop g p (processedIds db eid) db).2.length -
      ((regradeLoop g p (processedIds db eid) db).2.filter
        (fun e => e.status == "success")).length = 0
    rw [hfilter]
    exact Nat.sub_self _
  · show ((regradeLoop g p (processedIds db eid) db).2.filter
      (fun e => e.status == "success")).length
      = (regradeLoop g p (processedIds db eid) db).2.length
    exact hfilter

/-- Witness for C6 (amended) on the three-submission scenario. -/
theorem c6_regrade_reports_all_success_witness :
    ∃ db' rep, regrade_all_uploads g6 p0 1 threeUploadDB = .ok (db', rep) ∧
      rep.failed = 0 ∧ rep.successful = rep.total_uploads ∧
      ∀ e ∈ rep.results, e.status = "success" :=
  c6_regrade_reports_all_success g6 p0 1 threeUploadDB (by decide)

/-! ### Claim C7 -/

/-- C7, as stated, is false: `reprocess_upload` takes no extraction
adapter at all and never touches the submission row. On a submission in
terminal `failed` state with stored text `"Q1: cat"`, reprocessing leaves
the `exam_uploads` table bit-for-bit unchanged — still `failed`, stored
text and confidence untouched, no pass through `processing` — while a
`student_answers` row for question 1 is produced from the previously
stored text. Re-running extraction would, per `process_upload_async`,
have rewritten `processing_status` on every path. -/
theorem c7_counterexample :
    (reprocessOut g0 p0 100 failedStatusDB).uploads = failedStatusDB.uploads ∧
    ((reprocessOut g0 p0 100 failedStatusDB).findUpload 100).map
      (fun u => u.processing_status) = some "failed" ∧
    ((reprocessOut g0 p0 100 failedStatusDB).findUpload 100).map
      (fun u => u.ocr_extracted_text) = some "Q1: cat" ∧
    saCount (reprocessOut g0 p0 100 failedStatusDB) 100 10 = 1 := by
  refine ⟨by decide, by decide, by decide, by decide⟩

/-- C7 (amended): for every stored submission, whatever its current
`processing_status`, `reprocess_upload` re-runs only parsing and grading
(`auto_grade_upload`) on the previously stored extracted text; it does
not re-run extraction, and it never modifies the submission row. -/
theorem c7_reprocess_only_regrades (g : GradeFn) (p : ParseFn) (uid : Nat)
    (db : DB) (u : Upload) (h : db.findUpload uid = some u) :
    reprocess_upload g p uid db
      = .ok (runAutoGrade g p uid db, "Reprocessing completed") ∧
    (runAutoGrade g p uid db).uploads = db.uploads :=
  ⟨reprocess_eq g p uid db u h, runAutoGrade_uploads g p uid db⟩

/-- Witness for C7 (amended) on the `failed`-status scenario. -/
theorem c7_reprocess_only_regrades_witness :
    reprocess_upload g0 p0 100 failedStatusDB
      = .ok (runAutoGrade g0 p0 100 failedStatusDB, "Reprocessing completed") ∧
    (runAutoGrade g0 p0 100 failedStatusDB).uploads = failedStatusDB.uploads :=
  c7_reprocess_only_regrades g0 p0 100 failedStatusDB
    { upload100 with processing_status := "failed", error_message := "boom" }
    (by decide)

/-! ### Claim C8 -/

/-- C8, as stated, is false: with the configured allow-list
`"pdf,jpg,jpeg,png"` (no `txt` entry — matching the router comment that
`txt` was missing), the batch route accepts extension `txt` because it
appends `'txt'` to the split list, while the ZIP route checks the split
list unmodified and rejects it. -/
theorem c8_counterexample :
    batchAcceptsExt cfgNoTxt "txt" = true ∧
    zipAcceptsExt cfgNoTxt "txt" = false ∧
    fileExtension "essay.txt" = "txt" := by
  refine ⟨by decide, by decide, by decide⟩

/-- C8 (amended): the two routes agree on every extension other than
`txt`: for any configured allow-list, an extension different from `txt`
is accepted by the batch route iff it is accepted by the ZIP route, and
the batch route additionally always accepts `txt` (the ZIP route accepts
`txt` only when the configuration lists it). -/
theorem c8_extension_agreement :
    (∀ cfg ext, ext ≠ "txt" → batchAcceptsExt cfg ext = zipAcceptsExt cfg ext) ∧
    (∀ cfg, batchAcceptsExt cfg "txt" = true) := by
  constructor
  · intro cfg ext hne
    unfold batchAcceptsExt batchAllowedExtensions zipAcceptsExt
    by_cases h : (splitChar ',' cfg).contains "txt" = true
    · rw [if_pos h]
    · rw [if_neg h]
      show ((splitChar ',' cfg) ++ ["txt"]).elem ext = (splitChar ',' cfg).elem ext
      simp [List.elem_eq_mem, hne]
  · intro cfg
    unfold batchAcceptsExt batchAllowedExtensions
    by_cases h : (splitChar ',' cfg).contains "txt" = true
    · rw [if_pos h]
      exact h
    · rw [if_neg h]
      show ((splitChar ',' cfg) ++ ["txt"]).elem "txt" = true
      simp [List.elem_eq_mem]

/-- Witness for C8 (amended): a non-`txt` extension is treated alike. -/
theorem c8_extension_agreement_witness :
    batchAcceptsExt cfgNoTxt "pdf" = zipAcceptsExt cfgNoTxt "pdf" :=
  c8_extension_agreement.1 cfgNoTxt "pdf" (by decide)

/-! ### Claim C9 -/

/-- C9, as stated, is false: `delete_upload` never consults
`processing_status`. On a submission currently `processing`, the
requester who uploaded it deletes the record (and its stored bytes)
immediately — nothing is rejected or deferred. -/
theorem c9_counterexample :
    ((processingDB.findUpload 100).map (fun u => u.processing_status)
      = some "processing") ∧
    (delete_upload 100 "T1" processingDB).isOk = true ∧
    (deleteOut 100 "T1" processingDB).map (fun d => d.findUpload 100)
      = some none := by
  refine ⟨by decide, by decide, by decide⟩

/-- C9 (amended): `delete_upload` checks only existence and ownership:
whenever the upload exists and the requester is the uploading teacher,
the deletion proceeds immediately and removes the record, with no
condition on `processing_status` — in particular also while the
submission is still `processing`. -/
theorem c9_delete_ignores_status (uid : Nat) (tid : String) (db : DB)
    (u : Upload) (h : db.findUpload uid = some u)
    (ht : u.uploaded_by_teacher_id = tid) :
    ∃ db', delete_upload uid tid db = .ok (db', "Upload deleted successfully") ∧
      db'.findUpload uid = none := by
  unfold delete_upload
  rw [h]
  dsimp only
  have hb : (u.uploaded_by_teacher_id != tid) = false := by
    simp [ht]
  rw [hb]
  rw [if_neg Bool.false_ne_true]
  refine ⟨_, rfl, ?_⟩
  unfold DB.findUpload
  rw [List.find?_eq_none]
  intro x hx
  rw [List.mem_filter] at hx
  simp only [Bool.not_eq_true'] at hx
  intro hcontra
  rw [hx.2] at hcontra
  cases hcontra

/-- Witness for C9 (amended) on the in-flight `processing` scenario. -/
theorem c9_delete_ignores_status_witness :
    ∃ db', delete_upload 100 "T1" processingDB
        = .ok (db', "Upload deleted successfully") ∧
      db'.findUpload 100 = none :=
  c9_delete_ignores_status 100 "T1" processingDB
    { upload100 with processing_status := "processing" } (by decide) (by decide)

/-! ### Claim C10 -/

/-- C10: `auto_grade_upload` catches every exception internally and
always returns normally, so no grading failure propagates to callers:
`reprocess_upload` reports success whenever the upload exists, and a
`regrade_all_uploads` report can never contain a `failed` entry. -/
theorem c10_auto_grade_never_raises (g : GradeFn) (p : ParseFn)
    (uid eid : Nat) (db : DB) :
    (auto_grade_upload g p uid db).isOk = true ∧
    ((db.findUpload uid).isSome = true →
      ∃ db', reprocess_upload g p uid db = .ok (db', "Reprocessing completed")) ∧
    (∀ db' rep, regrade_all_uploads g p eid db = .ok (db', rep) →
      ∀ e ∈ rep.results, e.status = "success") := by
  refine ⟨?_, ?_, ?_⟩
  · rw [auto_grade_upload_eq]
    rfl
  · intro h
    obtain ⟨u, hu⟩ := Option.isSome_iff_exists.mp h
    exact ⟨runAutoGrade g p uid db, reprocess_eq g p uid db u hu⟩
  · intro db' rep hok e he
    unfold regrade_all_uploads at hok
    by_cases hempty : (processedIds db eid).isEmpty = true
    · rw [if_pos hempty] at hok
      cases hok
    · rw [if_neg hempty] at hok
      rw [Except.ok.injEq] at hok
      have hrep : (regradeFinish eid
          (regradeLoop g p (processedIds db eid) db)).2 = rep := by
        rw [hok]
      rw [← hrep] at he
      exact (regradeLoop_entries g p (processedIds db eid) db).2 e he

/-- Witness for C10 on the base scenario. -/
theorem c10_auto_grade_never_raises_witness :
    (auto_grade_upload g0 p0 100 baseDB).isOk = true ∧
    (∃ db', reprocess_upload g0 p0 100 baseDB
      = .ok (db', "Reprocessing completed")) :=
  ⟨(c10_auto_grade_never_raises g0 p0 100 1 baseDB).1,
   (c10_auto_grade_never_raises g0 p0 100 1 baseDB).2.1 (by decide)⟩

end Autograder

